import Mathlib

/-!
Shallow embedding of the data-transformation pipeline of
`dashboard_interactif_final.py` (sales dashboard script).

Modelling conventions:
* A pandas float column that may hold NaN is modelled as `Option ℚ`
  (`none` = NaN); the IEEE comparisons, which are false on NaN, are the
  functions `fgt` / `fle` below.
* Monetary amounts are exact rationals `ℚ`.
* A calendar date is its ordinal day number (`ℕ`), with day `0` chosen to
  be a Monday, so `day_name d = weekday names [d % 7]` agrees with the
  proleptic Gregorian weekday used by `pandas.Series.dt.day_name()`
  (for instance 2024-01-01, a Monday, is any number `≡ 0 [MOD 7]`).
* Geographic coordinates feed the transcendental Web-Mercator formula and
  are real numbers `ℝ`; the `y` formula `R·ln(tan(π/4 + φ/2))` is partial:
  where the tangent term leaves the domain of the logarithm (in particular
  at the poles, where it diverges to infinity) the result is `none`.
-/

/-- One row of `sales_data.csv`: columns `date`, `category`, `sales`
(the derived `day_of_week` column is recomputed from `date`). -/
structure SalesRecord where
  date : ℕ
  category : String
  sales : ℚ
deriving DecidableEq, Repr

/-- One row of `geographic_data.csv`: columns `latitude`, `longitude`,
`region`, `sales`. -/
structure GeoRecord where
  latitude : ℝ
  longitude : ℝ
  region : String
  sales : ℝ

/-- One row of `customer_feedback.csv`: columns `date`, `category`,
`rating`, `sentiment_score`.  The score is a float, hence `Option ℚ`. -/
structure FeedbackRecord where
  date : ℕ
  category : String
  rating : ℚ
  sentiment_score : Option ℚ
deriving DecidableEq, Repr

/-- IEEE `>` on possibly-NaN floats: any comparison with NaN is false. -/
def fgt (a b : Option ℚ) : Bool :=
  match a, b with
  | some x, some y => decide (y < x)
  | _, _ => false

/-- IEEE `<=` on possibly-NaN floats: any comparison with NaN is false. -/
def fle (a b : Option ℚ) : Bool :=
  match a, b with
  | some x, some y => decide (x ≤ y)
  | _, _ => false

/-- `categorize_sentiment` (script lines 136-142): `score > 0.7` gives
"Positive", `0.3 <= score <= 0.7` gives "Neutral", anything else falls
through to "Negative".  Python's chained comparison `0.3 <= s <= 0.7` is
the conjunction of the two comparisons. -/
def categorize_sentiment (score : Option ℚ) : String :=
  if fgt score (some 0.7) then "Positive"
  else if fle (some 0.3) score && fle score (some 0.7) then "Neutral"
  else "Negative"

/-- The per-record `Sentiment` column
(`customer_feedback['sentiment_score'].apply(categorize_sentiment)`). -/
def sentiment_labels (feedback : List FeedbackRecord) : List String :=
  feedback.map (fun r => categorize_sentiment r.sentiment_score)

/-- Number of feedback rows classified with label `l`. -/
def labelCount (feedback : List FeedbackRecord) (l : String) : ℕ :=
  ((sentiment_labels feedback).filter (fun s => decide (s = l))).length

/-- `sentiment_counts` (script lines 144-146):
`value_counts()` tallies each label that occurs in the `Sentiment` column
(labels that never occur are simply not among the column's values, so
they are absent from the tally) and orders the tally by descending count. -/
def sentiment_counts (feedback : List FeedbackRecord) : List (String × ℕ) :=
  List.insertionSort (fun a b => b.2 ≤ a.2)
    (((["Positive", "Neutral", "Negative"].filter
        (fun l => decide (l ∈ sentiment_labels feedback))).map
      (fun l => (l, labelCount feedback l))))

section SentimentLemmas

lemma categorize_of_gt {s : ℚ} (h : (0.7 : ℚ) < s) :
    categorize_sentiment (some s) = "Positive" := by
  simp [categorize_sentiment, fgt, h]

lemma categorize_of_between {s : ℚ} (h₁ : (0.3 : ℚ) ≤ s) (h₂ : s ≤ (0.7 : ℚ)) :
    categorize_sentiment (some s) = "Neutral" := by
  simp [categorize_sentiment, fgt, fle, h₁, h₂, not_lt.2 h₂]

lemma categorize_of_lt {s : ℚ} (h : s < (0.3 : ℚ)) :
    categorize_sentiment (some s) = "Negative" := by
  have h₂ : ¬ ((0.7 : ℚ) < s) := by linarith
  have h₃ : ¬ ((0.3 : ℚ) ≤ s) := not_le.2 h
  simp [categorize_sentiment, fgt, fle, h₂, h₃]

end SentimentLemmas

/-- C1: the classifier sends `s > 0.7` to "Positive", `0.3 ≤ s ≤ 0.7`
(both boundaries included) to "Neutral", `s < 0.3` to "Negative"; in
particular 0.7 ↦ Neutral, 0.70001 ↦ Positive, 0.3 ↦ Neutral,
0.29999 ↦ Negative. -/
theorem categorize_sentiment_boundaries :
    (∀ s : ℚ, (0.7 : ℚ) < s → categorize_sentiment (some s) = "Positive") ∧
    (∀ s : ℚ, (0.3 : ℚ) ≤ s → s ≤ (0.7 : ℚ) →
      categorize_sentiment (some s) = "Neutral") ∧
    (∀ s : ℚ, s < (0.3 : ℚ) → categorize_sentiment (some s) = "Negative") ∧
    categorize_sentiment (some 0.7) = "Neutral" ∧
    categorize_sentiment (some 0.70001) = "Positive" ∧
    categorize_sentiment (some 0.3) = "Neutral" ∧
    categorize_sentiment (some 0.29999) = "Negative" := by
  exact ⟨fun s h => categorize_of_gt h,
    fun s h₁ h₂ => categorize_of_between h₁ h₂,
    fun s h => categorize_of_lt h,
    categorize_of_between (by norm_num) (by norm_num),
    categorize_of_gt (by norm_num),
    categorize_of_between (by norm_num) (by norm_num),
    categorize_of_lt (by norm_num)⟩

/-- C1 witness: the three conditional clauses evaluated at 1, 0.5, 0. -/
theorem categorize_sentiment_boundaries_witness :
    categorize_sentiment (some 1) = "Positive" ∧
    categorize_sentiment (some 0.5) = "Neutral" ∧
    categorize_sentiment (some 0) = "Negative" :=
  ⟨categorize_sentiment_boundaries.1 1 (by norm_num),
   categorize_sentiment_boundaries.2.1 0.5 (by norm_num) (by norm_num),
   categorize_sentiment_boundaries.2.2.1 0 (by norm_num)⟩

/-- C10: the classifier is total with fall-through branch "Negative":
every score gets exactly one of the three labels, NaN (for which both
guards are false) is labeled "Negative", and whenever both guards are
false the result is "Negative". -/
theorem categorize_sentiment_total :
    (∀ score : Option ℚ,
      categorize_sentiment score = "Positive" ∨
      categorize_sentiment score = "Neutral" ∨
      categorize_sentiment score = "Negative") ∧
    categorize_sentiment none = "Negative" ∧
    (∀ score : Option ℚ, fgt score (some 0.7) = false →
      (fle (some 0.3) score && fle score (some 0.7)) = false →
      categorize_sentiment score = "Negative") := by
  refine ⟨fun score => ?_, by decide, fun score h₁ h₂ => ?_⟩
  · unfold categorize_sentiment
    split_ifs <;> simp
  · simp [categorize_sentiment, h₁, h₂]

/-- C10 witness: the fall-through clause applied to NaN, whose guards
both evaluate to false. -/
theorem categorize_sentiment_total_witness :
    categorize_sentiment none = "Negative" :=
  categorize_sentiment_total.2.2 none rfl rfl

/-! ## Sales aggregations -/

/-- Sum of the `sales` column of a list of records
(`['sales'].sum()`, exact rational arithmetic). -/
def sumSales (records : List SalesRecord) : ℚ :=
  (records.map (fun r => r.sales)).sum

/-- The distinct dates of the input, ascending — the group keys produced
by `groupby('date')`, which sorts keys ascending by default. -/
def salesDates (records : List SalesRecord) : List ℕ :=
  List.insertionSort (fun a b => a ≤ b) (records.map (fun r => r.date)).dedup

/-- `daily_sales` (script line 58):
`sales_data.groupby('date')['sales'].sum().reset_index()` — one row per
distinct date, ascending, holding the sum of that date's sales. -/
def daily_sales (records : List SalesRecord) : List (ℕ × ℚ) :=
  (salesDates records).map
    (fun d => (d, sumSales (records.filter (fun r => decide (r.date = d)))))

/-- The distinct categories of the input, ascending — the group keys
produced by `groupby('category')` (sorted by default). -/
def salesCategories (records : List SalesRecord) : List String :=
  List.insertionSort (fun a b => a ≤ b) (records.map (fun r => r.category)).dedup

/-- `category_sales` (script line 73):
`sales_data.groupby('category')['sales'].sum().reset_index()`. -/
def category_sales (records : List SalesRecord) : List (String × ℚ) :=
  (salesCategories records).map
    (fun c => (c, sumSales (records.filter (fun r => decide (r.category = c)))))

/-! ## Heatmap (day-of-week × category matrix) -/

/-- The canonical weekday order `days_order` (script line 92). -/
def days_order : List String :=
  ["Monday", "Tuesday", "Wednesday", "Thursday", "Friday", "Saturday", "Sunday"]

/-- `day_name` models `sales_data['date'].dt.day_name()` (script line 40):
with dates as ordinal day numbers and day `0` a Monday, the weekday name
is the `(d % 7)`-th entry of the Monday-first week. -/
def day_name (d : ℕ) : String := days_order.getD (d % 7) ""

/-- The weekday names that actually occur in the input: the row index of
the pivot table built from `groupby(['day_of_week','category'])`. -/
def observedDayNames (records : List SalesRecord) : List String :=
  (records.map (fun r => day_name r.date)).dedup

/-- Value of one cell of `heatmap_pivot` (script lines 89-93) after
`fillna(0)` and `reindex(days_order)`, for `day ∈ days_order` and an
observed category `cat`.  The pivot grid built before `reindex` has a row
only for each observed weekday; on those rows `fillna(0)` has already
replaced the missing (day, category) combinations by `0`.  `reindex` then
inserts an all-NaN row (`none`) for each weekday that never occurs, since
`fillna(0)` ran before `reindex`. -/
def pivotCell (records : List SalesRecord) (day cat : String) : Option ℚ :=
  if day ∈ observedDayNames records then
    some (sumSales (records.filter
      (fun r => decide (day_name r.date = day) && decide (r.category = cat))))
  else none

/-- One entry of the melted heatmap source (script lines 95-97). -/
structure HeatmapCell where
  day_of_week : String
  category : String
  sales : Option ℚ
deriving DecidableEq, Repr

/-- The melted heatmap table (script lines 95-97): `melt` stacks the
pivot column by column, so the cells are listed per category (pivot
column order = sorted categories), each column running through the 7
reindexed weekday rows in `days_order` order. -/
def heatmap_cells (records : List SalesRecord) : List HeatmapCell :=
  (salesCategories records).flatMap (fun cat =>
    days_order.map (fun day => ⟨day, cat, pivotCell records day cat⟩))

/-- Float addition with NaN propagation: the sum of a float column that
contains a NaN is NaN. -/
def addFloat (a b : Option ℚ) : Option ℚ :=
  match a, b with
  | some x, some y => some (x + y)
  | _, _ => none

/-- Sum of the `sales` values of all heatmap cells, as float arithmetic
computes it: NaN-propagating. -/
def heatmapTotal (records : List SalesRecord) : Option ℚ :=
  (heatmap_cells records).foldl (fun acc c => addFloat acc c.sales) (some 0)

section DailySalesLemmas

lemma daily_sales_map_fst (records : List SalesRecord) :
    (daily_sales records).map Prod.fst = salesDates records := by
  simp [daily_sales, List.map_map, Function.comp_def]

lemma salesDates_nodup (records : List SalesRecord) :
    (salesDates records).Nodup :=
  ((List.perm_insertionSort _ _).nodup_iff).mpr (List.nodup_dedup _)

end DailySalesLemmas

/-- C5: `daily_sales` has exactly one row per distinct input date (its
date column is strictly sorted, hence duplicate-free, and carries exactly
the dates present in the input), each row holds the exact rational sum of
the sales of the records with that date, the empty input gives the empty
output, and the concrete three-record scenario evaluates as specified
(dates 0 = 2024-01-01 and 1 = 2024-01-02). -/
theorem daily_sales_spec :
    (∀ records : List SalesRecord,
      ((daily_sales records).map Prod.fst).Sorted (· < ·) ∧
      ((daily_sales records).map Prod.fst).Nodup ∧
      (∀ d : ℕ, d ∈ (daily_sales records).map Prod.fst ↔
        d ∈ records.map (fun r => r.date)) ∧
      (∀ p ∈ daily_sales records,
        p.2 = sumSales (records.filter (fun r => decide (r.date = p.1))))) ∧
    daily_sales [] = [] ∧
    daily_sales [⟨0, "A", 100⟩, ⟨0, "B", 50⟩, ⟨1, "A", 30⟩] =
      [(0, 150), (1, 30)] := by
  refine ⟨fun records => ⟨?_, ?_, ?_, ?_⟩, by rfl, ?_⟩
  · rw [daily_sales_map_fst]
    exact (List.sorted_insertionSort _ _).lt_of_le (salesDates_nodup records)
  · rw [daily_sales_map_fst]; exact salesDates_nodup records
  · intro d
    rw [daily_sales_map_fst]
    simp [salesDates, List.mem_insertionSort, List.mem_dedup]
  · intro p hp
    rcases List.mem_map.1 hp with ⟨d, _, rfl⟩
    rfl
  · simp +decide [daily_sales, salesDates, sumSales, List.insertionSort,
      List.orderedInsert, List.dedup, List.pwFilter, List.filter]
    norm_num

/-- C5 witness: the per-row sum clause at the one-record input, whose
single row is `(0, 100)`. -/
theorem daily_sales_spec_witness :
    ((0, 100) : ℕ × ℚ).2 =
      sumSales ([⟨0, "A", (100 : ℚ)⟩].filter
        (fun r => decide (r.date = ((0, 100) : ℕ × ℚ).1))) :=
  (daily_sales_spec.1 [⟨0, "A", 100⟩]).2.2.2 (0, 100) (by
    norm_num [daily_sales, salesDates, sumSales, List.insertionSort,
      List.orderedInsert, List.dedup, List.pwFilter, List.filter])

/-- C2 (failing input): for the single record (2024-01-01 = a Monday,
"A", 100) the melted heatmap contains a cell for each of the 7 weekdays,
but the six weekday rows inserted by `reindex` after `fillna(0)` hold
NaN, not 0: the (Tuesday, "A") cell has no contributing records yet its
value is `none` rather than `some 0`. -/
theorem heatmap_missing_weekday_nan :
    heatmap_cells [⟨0, "A", 100⟩] =
      [⟨"Monday", "A", some 100⟩, ⟨"Tuesday", "A", none⟩,
       ⟨"Wednesday", "A", none⟩, ⟨"Thursday", "A", none⟩,
       ⟨"Friday", "A", none⟩, ⟨"Saturday", "A", none⟩,
       ⟨"Sunday", "A", none⟩] := by
  simp +decide [heatmap_cells, salesCategories, pivotCell, observedDayNames,
    day_name, days_order, sumSales, List.insertionSort, List.orderedInsert,
    List.dedup, List.pwFilter, List.filter, List.flatMap]

/-! ## Geospatial reprojection (WGS84 → Web Mercator)

The script (lines 43-47) feeds each row's raw `(longitude, latitude)`
to `Transformer.from_crs("epsg:4326", "epsg:3857").transform` with no
clamping of any kind.  The transform is the spherical forward Mercator:
`x = R·λ`, `y = R·ln(tan(π/4 + φ/2))` with `R = 6378137` and λ, φ in
radians.  The `y` formula is partial: where the tangent term is not a
positive real (in particular at φ = ±90°, where `tan` diverges and the
projected ordinate is infinite) there is no finite value, modelled as
`none`. -/

/-- Web-Mercator abscissa: `x = R · λ`, longitude in degrees. -/
noncomputable def mercator_x (lon : ℝ) : ℝ :=
  6378137 * (lon * Real.pi / 180)

/-- Web-Mercator ordinate: `y = R · ln(tan(π/4 + φ/2))`, latitude in
degrees; `none` where the tangent term leaves the domain of the
logarithm (no finite value — at the poles the formula diverges). -/
noncomputable def mercator_y (lat : ℝ) : Option ℝ :=
  if 0 < Real.tan (Real.pi / 4 + lat * Real.pi / 180 / 2) then
    some (6378137 * Real.log (Real.tan (Real.pi / 4 + lat * Real.pi / 180 / 2)))
  else none

/-- One row of `geo_data` after lines 44-47 added the two Mercator
columns: all four original columns plus `mercator_x`, `mercator_y`. -/
structure ProjectedPoint where
  latitude : ℝ
  longitude : ℝ
  region : String
  sales : ℝ
  mercator_x : ℝ
  mercator_y : Option ℝ

/-- The per-row lambda of lines 44-47: the record's own longitude and
latitude go straight into the transform, every original column is kept. -/
noncomputable def projectRecord (g : GeoRecord) : ProjectedPoint :=
  ⟨g.latitude, g.longitude, g.region, g.sales,
    mercator_x g.longitude, mercator_y g.latitude⟩

/-- `geo_data.apply(..., axis=1)` maps the lambda over the rows in
place, row-aligned: one output row per input row, same order. -/
noncomputable def projectAll (geo : List GeoRecord) : List ProjectedPoint :=
  geo.map projectRecord

section MercatorLemmas

lemma mercator_arg_lt {lat : ℝ} (h : lat < 90) :
    Real.pi / 4 + lat * Real.pi / 180 / 2 < Real.pi / 2 := by
  have hπ := Real.pi_pos
  nlinarith

lemma mercator_arg_pos {lat : ℝ} (h : -90 < lat) :
    0 < Real.pi / 4 + lat * Real.pi / 180 / 2 := by
  have hπ := Real.pi_pos
  nlinarith

lemma mercator_y_finite_of_lt {lat : ℝ} (h₁ : -90 < lat) (h₂ : lat < 90) :
    mercator_y lat =
      some (6378137 * Real.log (Real.tan (Real.pi / 4 + lat * Real.pi / 180 / 2))) := by
  have ht : 0 < Real.tan (Real.pi / 4 + lat * Real.pi / 180 / 2) :=
    Real.tan_pos_of_pos_of_lt_pi_div_two (mercator_arg_pos h₁) (mercator_arg_lt h₂)
  simp [mercator_y, ht]

end MercatorLemmas

/-- C3 counterexample: the claim says every latitude is clamped short of
the poles so that `mercator_y` is always finite, but the script clamps
nothing, and at latitude 90 the Mercator ordinate has no finite value:
the projected point of a pole record carries no finite `mercator_y`. -/
theorem mercator_y_at_pole_not_finite :
    (projectRecord ⟨90, 0, "pole", 0⟩).mercator_y = none := by
  have harg : Real.pi / 4 + (90 : ℝ) * Real.pi / 180 / 2 = Real.pi / 2 := by
    ring
  simp [projectRecord, mercator_y, harg, Real.tan_pi_div_two]

/-- C3 amended: the script performs no latitude clamping; for every
GeoRecord whose latitude lies strictly inside (-90°, 90°) the produced
`mercator_y` is a finite value, but at the poles (latitude ±90°) the
unclamped transform diverges and no finite value is produced. -/
theorem mercator_y_finite_iff_inside_poles :
    (∀ g : GeoRecord, -90 < g.latitude → g.latitude < 90 →
      ∃ y : ℝ, (projectRecord g).mercator_y = some y) ∧
    (projectRecord ⟨90, 0, "north", 0⟩).mercator_y = none ∧
    (projectRecord ⟨-90, 0, "south", 0⟩).mercator_y = none := by
  refine ⟨fun g h₁ h₂ => ?_, ?_, ?_⟩
  · exact ⟨_, mercator_y_finite_of_lt h₁ h₂⟩
  · have harg : Real.pi / 4 + (90 : ℝ) * Real.pi / 180 / 2 = Real.pi / 2 := by
      ring
    simp [projectRecord, mercator_y, harg, Real.tan_pi_div_two]
  · show mercator_y (-90) = none
    unfold mercator_y
    rw [show Real.pi / 4 + (-90 : ℝ) * Real.pi / 180 / 2 = 0 by ring]
    simp [Real.tan_zero]

/-- C3 witness: at the equator the transform produces a finite value. -/
theorem mercator_y_finite_iff_inside_poles_witness :
    ∃ y : ℝ, (projectRecord ⟨0, 0, "equator", 0⟩).mercator_y = some y :=
  mercator_y_finite_iff_inside_poles.1 ⟨0, 0, "equator", 0⟩
    (by norm_num) (by norm_num)

/-- C6: the reprojection realizes `x = R·λ`, `y = R·ln(tan(π/4 + φ/2))`
with `R = 6378137` (stated definitionally on the per-row transform);
(longitude 0, latitude 0) lands exactly on (0, 0); and for a fixed
latitude the abscissa is strictly monotone in longitude. -/
theorem mercator_formulas :
    (∀ g : GeoRecord,
      (projectRecord g).mercator_x = 6378137 * (g.longitude * Real.pi / 180) ∧
      (projectRecord g).mercator_y = mercator_y g.latitude) ∧
    mercator_x 0 = 0 ∧
    mercator_y 0 = some 0 ∧
    (∀ g g' : GeoRecord, g.latitude = g'.latitude →
      g.longitude < g'.longitude →
      (projectRecord g).mercator_x < (projectRecord g').mercator_x) := by
  refine ⟨fun g => ⟨rfl, rfl⟩, by simp [mercator_x], ?_, ?_⟩
  · have h0 : mercator_y 0 =
        some (6378137 * Real.log (Real.tan (Real.pi / 4 + 0 * Real.pi / 180 / 2))) :=
      mercator_y_finite_of_lt (by norm_num) (by norm_num)
    rw [h0]
    norm_num [Real.tan_pi_div_four]
  · intro g g' _ hlon
    show mercator_x g.longitude < mercator_x g'.longitude
    have hπ := Real.pi_pos
    unfold mercator_x
    have h2 : g.longitude * Real.pi < g'.longitude * Real.pi :=
      mul_lt_mul_of_pos_right hlon hπ
    nlinarith

/-- C6 witness: monotonicity at two concrete equatorial records one
degree of longitude apart. -/
theorem mercator_formulas_witness :
    (projectRecord ⟨0, 0, "a", 0⟩).mercator_x <
      (projectRecord ⟨0, 1, "b", 0⟩).mercator_x :=
  mercator_formulas.2.2.2 ⟨0, 0, "a", 0⟩ ⟨0, 1, "b", 0⟩ rfl (by norm_num)

/-- C7: the reprojection yields exactly one projected row per input row,
in input order, and each row keeps its original latitude, longitude,
region and sales unchanged; the two Mercator columns are the only
additions, computed from that row's own coordinates. -/
theorem projectAll_preserves_rows (geo : List GeoRecord) :
    (projectAll geo).length = geo.length ∧
    ∀ i : ℕ, ∀ hi : i < geo.length, ∀ hp : i < (projectAll geo).length,
      ((projectAll geo).get ⟨i, hp⟩).latitude = (geo.get ⟨i, hi⟩).latitude ∧
      ((projectAll geo).get ⟨i, hp⟩).longitude = (geo.get ⟨i, hi⟩).longitude ∧
      ((projectAll geo).get ⟨i, hp⟩).region = (geo.get ⟨i, hi⟩).region ∧
      ((projectAll geo).get ⟨i, hp⟩).sales = (geo.get ⟨i, hi⟩).sales ∧
      ((projectAll geo).get ⟨i, hp⟩).mercator_x =
        mercator_x ((geo.get ⟨i, hi⟩).longitude) ∧
      ((projectAll geo).get ⟨i, hp⟩).mercator_y =
        mercator_y ((geo.get ⟨i, hi⟩).latitude) := by
  refine ⟨by simp [projectAll], fun i hi hp => ?_⟩
  simp [projectAll, List.getElem_map, projectRecord]

/-- C7 witness: the one-record list, at index 0. -/
theorem projectAll_preserves_rows_witness :
    ((projectAll [⟨45, 7, "alps", 3⟩]).get
        ⟨0, by simp [projectAll]⟩).region =
      (([⟨45, 7, "alps", 3⟩] : List GeoRecord).get ⟨0, by simp⟩).region :=
  ((projectAll_preserves_rows [⟨45, 7, "alps", 3⟩]).2 0 (by simp)
    (by simp [projectAll])).2.2.1

/-- C4 (failing input): for the input [(Monday, "A", 100), (Tuesday,
"B", 50)] the time-series column sums to 150 and the category column sums
to 150, both equal to the input total 150, but the float sum over all
heatmap cells is NaN (`none`), not 150, because the weekdays Wednesday
to Sunday were materialized as NaN rows by `reindex` after `fillna(0)`. -/
theorem heatmap_sum_conservation_fails :
    ((daily_sales [⟨0, "A", 100⟩, ⟨1, "B", 50⟩]).map Prod.snd).sum = 150 ∧
    ((category_sales [⟨0, "A", 100⟩, ⟨1, "B", 50⟩]).map Prod.snd).sum = 150 ∧
    sumSales [⟨0, "A", 100⟩, ⟨1, "B", 50⟩] = 150 ∧
    heatmapTotal [⟨0, "A", 100⟩, ⟨1, "B", 50⟩] = none := by
  refine ⟨?_, ?_, ?_, ?_⟩ <;>
    simp +decide [daily_sales, salesDates, category_sales, salesCategories,
      sumSales, heatmapTotal, heatmap_cells, pivotCell, observedDayNames,
      day_name, days_order, addFloat, List.insertionSort, List.orderedInsert,
      List.dedup, List.pwFilter, List.filter, List.flatMap, List.foldl] <;>
    norm_num

/-! ## Sentiment histogram and whole pipeline -/

section SentimentCountLemmas

lemma labelCount_eq_filter_length (feedback : List FeedbackRecord) (l : String) :
    labelCount feedback l = (feedback.filter
      (fun r => decide (categorize_sentiment r.sentiment_score = l))).length := by
  simp [labelCount, sentiment_labels, List.filter_map, Function.comp_def]

lemma labelCount_pos_iff (feedback : List FeedbackRecord) (l : String) :
    0 < labelCount feedback l ↔ l ∈ sentiment_labels feedback := by
  simp [labelCount, List.length_pos, List.filter_eq_nil_iff]

end SentimentCountLemmas

/-- C8: the sentiment histogram holds the pair (l, c) exactly when l is
one of the three labels, c is the number of feedback records classified
with l, and c is positive — so every label occurring at least once is
present with its exact count, and a label occurring zero times is absent
(not emitted with count 0). -/
theorem sentiment_counts_spec (feedback : List FeedbackRecord) (l : String) (c : ℕ) :
    (l, c) ∈ sentiment_counts feedback ↔
      ((l = "Positive" ∨ l = "Neutral" ∨ l = "Negative") ∧
        c = (feedback.filter
          (fun r => decide (categorize_sentiment r.sentiment_score = l))).length ∧
        0 < c) := by
  rw [sentiment_counts, List.mem_insertionSort]
  simp only [List.mem_map, List.mem_filter, List.mem_cons,
    List.mem_singleton, List.not_mem_nil, or_false, decide_eq_true_eq,
    Prod.mk.injEq]
  constructor
  · rintro ⟨a, ⟨ha, hmem⟩, rfl, rfl⟩
    exact ⟨ha, (labelCount_eq_filter_length feedback a).symm ▸ rfl,
      (labelCount_pos_iff feedback a).2 hmem⟩
  · rintro ⟨hl, rfl, hpos⟩
    refine ⟨l, ⟨hl, ?_⟩, rfl, labelCount_eq_filter_length feedback l⟩
    rw [← labelCount_pos_iff, labelCount_eq_filter_length]
    exact hpos

/-- The five derived tables the script builds from the three inputs. -/
structure PipelineOutput where
  daily : List (ℕ × ℚ)
  byCategory : List (String × ℚ)
  heatmap : List HeatmapCell
  projected : List ProjectedPoint
  sentiments : List (String × ℕ)

/-- The whole derivation pass of the script (lines 58-146): the five
view-models computed from the three input tables, nothing else. -/
noncomputable def pipeline (sales : List SalesRecord) (geo : List GeoRecord)
    (feedback : List FeedbackRecord) : PipelineOutput :=
  ⟨daily_sales sales, category_sales sales, heatmap_cells sales,
    projectAll geo, sentiment_counts feedback⟩

/-- C9: the pipeline is deterministic — two runs over identical input
tables produce identical derived structures, element order included
(all five outputs are pure functions of the inputs; the group orders are
fixed by sorting, the melt and projection orders by the input order). -/
theorem pipeline_deterministic (sales sales' : List SalesRecord)
    (geo geo' : List GeoRecord) (feedback feedback' : List FeedbackRecord)
    (hs : sales = sales') (hg : geo = geo') (hf : feedback = feedback') :
    pipeline sales geo feedback = pipeline sales' geo' feedback' := by
  subst hs; subst hg; subst hf; rfl

/-- C9 witness: two runs on the same concrete snapshot coincide. -/
theorem pipeline_deterministic_witness :
    pipeline [⟨0, "A", 100⟩] [⟨45, 7, "alps", 3⟩] [⟨0, "A", 5, some 0.9⟩] =
      pipeline [⟨0, "A", 100⟩] [⟨45, 7, "alps", 3⟩] [⟨0, "A", 5, some 0.9⟩] :=
  pipeline_deterministic _ _ _ _ _ _ rfl rfl rfl
